import Mathlib

/-!
Shallow embedding of the core of the AI-based legal document analyzer
(modules `document_parser.py`, `text_analyzer.py`, `summarizer.py`,
`legal_analyzer.py`).

Python strings are modelled as `List Char` (sequences of code points,
ASCII-focused: the Unicode-aware character classes of Python's `re` and
`str` methods are modelled by their ASCII restrictions, which is exact on
the ASCII texts the analyzer targets).  Python exceptions are modelled by
an explicit error type; the file system and the binary PDF/DOCX/TXT
decoding libraries (external collaborators) are modelled as an abstract
record of functions.  Python floats in the summarizer's scoring are
modelled by exact rationals `ℚ`.
-/

namespace LegalDoc

/-- A Python string: a sequence of characters. -/
abbrev PyStr := List Char

/-- Characters treated as whitespace by Python's `str.strip`/`str.split`
and by the regex class `\s` (ASCII part). -/
def pyIsSpace (c : Char) : Bool :=
  c == ' ' || c == '\t' || c == '\n' || c == '\r' || c == Char.ofNat 11 || c == Char.ofNat 12

/-- ASCII lowercasing, as used for case-insensitive comparisons. -/
def pyToLower (c : Char) : Char := c.toLower

/-- Word characters for the regex class `\w` and boundaries `\b` (ASCII). -/
def isWordChar (c : Char) : Bool := c.isAlphanum || c == '_'

/-- Python `str.strip()`: remove leading and trailing whitespace. -/
def pyStrip (l : PyStr) : PyStr :=
  ((l.dropWhile pyIsSpace).reverse.dropWhile pyIsSpace).reverse

/-- Does the list start with a character satisfying `p`? -/
def headSat (p : Char → Bool) : List Char → Bool
  | [] => false
  | c :: _ => p c

/-- Split a string at every maximal nonempty run of characters satisfying
`p`, keeping the (possibly empty) pieces between runs.  This is the
semantics of `re.split` with a `[...]+` pattern, and (after dropping empty
pieces) of `str.split()` on whitespace. -/
def splitRuns (p : Char → Bool) : List Char → List PyStr
  | [] => [[]]
  | c :: rest =>
    if p c then
      if headSat p rest then splitRuns p rest else [] :: splitRuns p rest
    else
      match splitRuns p rest with
      | [] => [[c]]
      | h :: t => (c :: h) :: t

/-- Python `text.split(sep)` for a single-character separator (keeps empty
pieces). -/
def splitOnChar (sep : Char) : List Char → List PyStr
  | [] => [[]]
  | c :: rest =>
    if c == sep then [] :: splitOnChar sep rest
    else
      match splitOnChar sep rest with
      | [] => [[c]]
      | h :: t => (c :: h) :: t

/-- Python `str.split()` with no separator: whitespace-run split, empty
pieces dropped. -/
def pySplitWs (l : PyStr) : List PyStr :=
  (splitRuns pyIsSpace l).filter (fun s => !s.isEmpty)

/-- Python slice `l[a:b]` for non-negative clamped bounds. -/
def pySlice (l : PyStr) (a b : Nat) : PyStr := (l.drop a).take (b - a)

/-- The characters `.`, `!`, `?` used by the sentence-splitting regex
`[.!?]+`. -/
def isSentPunct (c : Char) : Bool := c == '.' || c == '!' || c == '?'

/-- Decimal rendering of a natural number, as Python `str(n)`. -/
def natStr (n : Nat) : PyStr := (Nat.repr n).toList

/-- Python substring test `k in hay`. -/
def containsSub : List Char → PyStr → Bool
  | [], k => k.isEmpty
  | s@(_ :: rest), k => k.isPrefixOf s || containsSub rest k

/-- Last index of `c` in the string starting at offset `i`, or `-1`
(Python `str.rfind`). -/
def rfindGo (c : Char) : List Char → Nat → Int
  | [], _ => -1
  | x :: rest, i =>
    let r := rfindGo c rest (i + 1)
    if r ≥ 0 then r else if x == c then (i : Int) else -1

/-- The extension part of `os.path.splitext(p)[1]` (POSIX rules: the
extension starts at the last dot of the basename, and a basename consisting
only of leading dots has no extension). -/
def splitext_ext (p : PyStr) : PyStr :=
  let sepIndex := rfindGo '/' p 0
  let dotIndex := rfindGo '.' p 0
  if dotIndex > sepIndex then
    let filenameIndex := (sepIndex + 1).toNat
    if (pySlice p filenameIndex dotIndex.toNat).any (fun c => c != '.') then
      p.drop dotIndex.toNat
    else []
  else []

/-- Python exceptions surfaced by the core (`ValueError`,
`FileNotFoundError`, `RuntimeError`), each carrying its message. -/
inductive PyError where
  | valueError (msg : PyStr)
  | fileNotFoundError (msg : PyStr)
  | runtimeError (msg : PyStr)
deriving DecidableEq

/-- Python `str(e)`: the message of an exception. -/
def PyError.msg : PyError → PyStr
  | .valueError m => m
  | .fileNotFoundError m => m
  | .runtimeError m => m

/-- The environment: file existence plus the three black-box format
decoders (`PyPDF2`, `python-docx`, `open().read()`); a decoder either
yields text or fails with an underlying cause message. -/
structure FS where
  pathExists : PyStr → Bool
  readPdf : PyStr → Except PyStr PyStr
  readDocx : PyStr → Except PyStr PyStr
  readTxt : PyStr → Except PyStr PyStr

/-- `DocumentParser.SUPPORTED_FORMATS`. -/
def SUPPORTED_FORMATS : List PyStr := [".pdf".toList, ".docx".toList, ".txt".toList]

/-- `DocumentParser._parse_pdf` / `_parse_docx` / `_parse_txt`: dispatch on
the (already lowercased, supported) extension; each helper wraps a library
failure into a `RuntimeError` with its own message. -/
def parseByExt (fs : FS) (ext file_path : PyStr) : Except PyError PyStr :=
  if ext = ".pdf".toList then
    match fs.readPdf file_path with
    | .ok t => .ok t
    | .error cause => .error (.runtimeError ("Error parsing PDF: ".toList ++ cause))
  else if ext = ".docx".toList then
    match fs.readDocx file_path with
    | .ok t => .ok t
    | .error cause => .error (.runtimeError ("Error parsing DOCX: ".toList ++ cause))
  else
    match fs.readTxt file_path with
    | .ok t => .ok t
    | .error cause => .error (.runtimeError ("Error parsing TXT: ".toList ++ cause))

/-- `DocumentParser.parse`: existence check, then (case-insensitive)
extension check, then format dispatch with any failure re-wrapped into
`RuntimeError("Error parsing document: ...")`. -/
def parse (fs : FS) (file_path : PyStr) : Except PyError PyStr :=
  if fs.pathExists file_path = false then
    .error (.fileNotFoundError ("File not found: ".toList ++ file_path))
  else
    let ext := (splitext_ext file_path).map pyToLower
    if ext ∈ SUPPORTED_FORMATS then
      match parseByExt fs ext file_path with
      | .ok t => .ok t
      | .error e => .error (.runtimeError ("Error parsing document: ".toList ++ e.msg))
    else
      .error (.valueError ("Unsupported file format: ".toList ++ ext
        ++ ". Supported formats: .pdf, .docx, .txt".toList))

/-! ### `TextAnalyzer` (`text_analyzer.py`) -/

/-- A clause record as produced by `TextAnalyzer.extract_clauses`. -/
structure Clause where
  number : PyStr
  text : PyStr
deriving DecidableEq

/-- A definition record as produced by `TextAnalyzer.extract_definitions`. -/
structure Definition where
  term : PyStr
  definition : PyStr
deriving DecidableEq

/-- The part of a Python regex match object that `extract_clauses`
inspects: `lastindex` (index of the last matched capturing group, `none`
if no group matched) and `group(1)`. -/
structure ReMatch where
  lastindex : Option Nat
  group1 : Option PyStr
deriving DecidableEq

/-- Case-insensitive literal match of the (pre-lowercased) word `a` at the
head of `s`. -/
def lowerLitAt (a : PyStr) (s : List Char) : Bool :=
  (s.take a.length).map pyToLower == a

/-- Match of the tail of clause pattern 1,
`\s*(?:CLAUSE|Article|Section|Paragraph)\s+(\d+[.\d]*)[:\s]` (IGNORECASE),
at the current position (just after the `(?:^|\n)` anchor); returns the
group-1 capture.  The greedy `\s*`/`\s+`/`\d+[.\d]*` runs admit no useful
backtracking because each following atom rejects every character the run
could release. -/
def p1MatchAt (s : List Char) : Option PyStr :=
  let s1 := s.dropWhile pyIsSpace
  match ["clause".toList, "article".toList, "section".toList,
      "paragraph".toList].find? (fun kw => lowerLitAt kw s1) with
  | none => none
  | some kw =>
    let s2 := s1.drop kw.length
    if headSat pyIsSpace s2 then
      let s3 := s2.dropWhile pyIsSpace
      if headSat Char.isDigit s3 then
        let run := s3.takeWhile (fun c => c.isDigit || c == '.')
        match s3.drop run.length with
        | d :: _ => if d == ':' || pyIsSpace d then some run else none
        | [] => none
      else none
    else none

/-- Match of the tail of clause pattern 2, `\s*(\d+)\.\s+[A-Z]`
(IGNORECASE, so the final class is any ASCII letter), at the current
position; returns the group-1 capture. -/
def p2MatchAt (s : List Char) : Option PyStr :=
  let s1 := s.dropWhile pyIsSpace
  if headSat Char.isDigit s1 then
    let run := s1.takeWhile Char.isDigit
    match s1.drop run.length with
    | '.' :: s3 =>
      if headSat pyIsSpace s3 then
        if headSat Char.isAlpha (s3.dropWhile pyIsSpace) then some run else none
      else none
    | _ => none
  else none

/-- `re.search` for a pattern anchored by `(?:^|\n)`: try the `^` branch
at position 0, then (leftmost first) the `\n` branch at every literal
newline. -/
def anchoredSearchGo (matchAt : List Char → Option PyStr) : List Char → Option PyStr
  | [] => none
  | c :: rest =>
    if c == '\n' then
      match matchAt rest with
      | some r => some r
      | none => anchoredSearchGo matchAt rest
    else anchoredSearchGo matchAt rest

/-- Full `re.search` of an `(?:^|\n)`-anchored pattern over a string. -/
def anchoredSearch (matchAt : List Char → Option PyStr) (s : List Char) : Option PyStr :=
  match matchAt s with
  | some r => some r
  | none => anchoredSearchGo matchAt s

/-- The per-line pattern loop of `extract_clauses`: the two clause
patterns are tried in order and the first match wins. -/
def lineMatch (line : PyStr) : Option ReMatch :=
  match anchoredSearch p1MatchAt line with
  | some cap => some ⟨some 1, some cap⟩
  | none =>
    match anchoredSearch p2MatchAt line with
    | some cap => some ⟨some 1, some cap⟩
    | none => none

/-- Clause context: `' '.join(lines[i:min(i+5, len(lines))]).strip()`. -/
def contextOf (lines : List PyStr) (i : Nat) : PyStr :=
  pyStrip (List.intercalate " ".toList ((lines.drop i).take 5))

/-- `context[:200] + '...' if len(context) > 200 else context`. -/
def truncate200 (s : PyStr) : PyStr :=
  if s.length > 200 then s.take 200 ++ "...".toList else s

/-- The loop of `TextAnalyzer.extract_clauses`, carrying the number of
clauses found so far (used by the sequential-number fallback). -/
def extractClausesGo (lines : List PyStr) : List (Nat × PyStr) → Nat → List Clause
  | [], _ => []
  | (i, line) :: rest, n =>
    match lineMatch line with
    | some m =>
      let num : PyStr :=
        match m.lastindex with
        | some _ => m.group1.getD []
        | none => natStr (n + 1)
      ⟨num, truncate200 (contextOf lines i)⟩ :: extractClausesGo lines rest (n + 1)
    | none => extractClausesGo lines rest n

/-- `TextAnalyzer.extract_clauses`. -/
def extract_clauses (text : PyStr) : List Clause :=
  let lines := splitOnChar '\n' text
  extractClausesGo lines lines.enum 0

/-- Match of the definition pattern
`"([^"]+)"\s+(?:means|shall mean|refers to|is defined as)` (IGNORECASE) at
the current position; returns the captured term and the number of
characters consumed.  The greedy `[^"]+` and `\s+` runs admit no useful
backtracking: the atoms that follow them reject every released
character. -/
def defMatchAt : List Char → Option (PyStr × Nat)
  | '"' :: s1 =>
    let term := s1.takeWhile (fun c => c != '"')
    if term.isEmpty then none
    else
      match s1.drop term.length with
      | '"' :: s3 =>
        let w := s3.takeWhile pyIsSpace
        if w.isEmpty then none
        else
          match ["means".toList, "shall mean".toList, "refers to".toList,
              "is defined as".toList].find? (fun a => lowerLitAt a (s3.drop w.length)) with
          | some a => some (term, 1 + term.length + 1 + w.length + a.length)
          | none => none
      | _ => none
  | _ => none

/-- `re.finditer` loop for the definition pattern: leftmost,
non-overlapping matches, each paired with its trimmed context window
`text[max(0, start-50) : min(len, end+150)]`. -/
def findDefsGo (text : PyStr) : Nat → Nat → List Char → List (PyStr × PyStr)
  | 0, _, _ => []
  | _ + 1, _, [] => []
  | fuel + 1, pos, s@(_ :: rest) =>
    match defMatchAt s with
    | some (term, len) =>
      let e := pos + len
      (term, pyStrip (pySlice text (pos - 50) (e + 150)))
        :: findDefsGo text fuel e (s.drop len)
    | none => findDefsGo text fuel (pos + 1) rest

/-- `TextAnalyzer.extract_definitions`. -/
def extract_definitions (text : PyStr) : List Definition :=
  ((findDefsGo text text.length 0 text).map
    (fun p => { term := p.1, definition := p.2 })).take 20

/-- One-or-more-letter alternatives of the two obligation patterns, with
`X?` optional suffixes expanded into explicit alternatives. -/
def obligationAlts1 : List PyStr :=
  ["shall".toList, "must".toList, "will".toList, "is required to".toList,
    "is obligated to".toList, "agrees to".toList]

/-- Alternatives of `\b(?:responsibilities?|obligations?|duties)\b`. -/
def obligationAlts2 : List PyStr :=
  ["responsibilities".toList, "responsibilitie".toList, "obligations".toList,
    "obligation".toList, "duties".toList]

/-- Does the word boundary `\b` hold just before a word character, given
the preceding character (if any)? -/
def boundaryBefore : Option Char → Bool
  | none => true
  | some c => !isWordChar c

/-- Case-insensitive match of alternative `a` at the head of `s`, with a
trailing word boundary `\b`. -/
def altHere (a : PyStr) (s : List Char) : Bool :=
  lowerLitAt a s &&
    (match s.drop a.length with
    | [] => true
    | d :: _ => !isWordChar d)

/-- `re.search` existence for a `\b(?:...)\b` alternation pattern
(IGNORECASE), scanning every position with its preceding character. -/
def searchAltsGo (alts : List PyStr) : Option Char → List Char → Bool
  | _, [] => false
  | prev, s@(c :: rest) =>
    (boundaryBefore prev && alts.any (fun a => altHere a s)) ||
      searchAltsGo alts (some c) rest

/-- The obligation-pattern test of `extract_obligations`: pattern families
tried in order, first hit decides (the outcome is their disjunction). -/
def obligationSearch (s : PyStr) : Bool :=
  searchAltsGo obligationAlts1 none s || searchAltsGo obligationAlts2 none s

/-- `TextAnalyzer.extract_obligations`. -/
def extract_obligations (text : PyStr) : List PyStr :=
  ((splitRuns isSentPunct text).filterMap (fun s0 =>
    let s := pyStrip s0
    if s.isEmpty then none
    else if obligationSearch s ∧ s.length > 20 then some (truncate200 s)
    else none)).take 15

/-- `re.finditer` loop for the escaped-literal keyword pattern
(IGNORECASE): leftmost non-overlapping occurrences as `(start, end)`
pairs; a zero-width (empty-keyword) match also occurs at the end of the
text and advances the scan by one. -/
def kwOccGo (k : PyStr) : Nat → Nat → List Char → List (Nat × Nat)
  | 0, _, _ => []
  | _ + 1, pos, [] => if k.isEmpty then [(pos, pos)] else []
  | fuel + 1, pos, s@(_ :: rest) =>
    if lowerLitAt k s then
      (pos, pos + k.length) ::
        (if k.isEmpty then kwOccGo k fuel (pos + 1) rest
        else kwOccGo k fuel (pos + k.length) (s.drop k.length))
    else kwOccGo k fuel (pos + 1) rest

/-- `re.sub` of the keyword pattern with replacement `**{match}**` over a
context window (leftmost non-overlapping, original case preserved). -/
def highlightGo (k : PyStr) : Nat → List Char → List Char
  | 0, s => s
  | _ + 1, [] => if k.isEmpty then "****".toList else []
  | fuel + 1, s@(c :: rest) =>
    if lowerLitAt k s then
      if k.isEmpty then "****".toList ++ c :: highlightGo k fuel rest
      else "**".toList ++ s.take k.length ++ "**".toList ++ highlightGo k fuel (s.drop k.length)
    else c :: highlightGo k fuel rest

/-- The per-keyword body of `search_keywords`: every occurrence yields the
trimmed window `text[max(0, start-100) : min(len, end+100)]` with all
occurrences inside it highlighted. -/
def searchKeywordMatches (text : PyStr) (keyword : PyStr) : List PyStr :=
  let k := keyword.map pyToLower
  (kwOccGo k (text.length + 1) 0 text).map (fun se =>
    let ctx := pyStrip (pySlice text (se.1 - 100) (se.2 + 100))
    highlightGo k (ctx.length + 1) ctx)

/-- Python dict assignment `d[key] = v` on an insertion-ordered
association list. -/
def dictSet (d : List (PyStr × List PyStr)) (key : PyStr) (v : List PyStr) :
    List (PyStr × List PyStr) :=
  match d with
  | [] => [(key, v)]
  | (k0, v0) :: t => if k0 = key then (key, v) :: t else (k0, v0) :: dictSet t key v

/-- The loop body of `search_keywords`: search one keyword; if it has
matches, store the first 10 snippets under the keyword. -/
def searchStep (text : PyStr) (res : List (PyStr × List PyStr)) (kw : PyStr) :
    List (PyStr × List PyStr) :=
  let mlist := searchKeywordMatches text kw
  if mlist.isEmpty then res else dictSet res kw (mlist.take 10)

/-- `TextAnalyzer.search_keywords`: keywords searched in caller order;
a keyword with no matches contributes no key; retained snippets are capped
at the first 10. -/
def search_keywords (text : PyStr) (keywords : List PyStr) : List (PyStr × List PyStr) :=
  keywords.foldl (searchStep text) []

/-! ### `DocumentSummarizer` (`summarizer.py`)

Python float arithmetic in the sentence scores is modelled by exact
rational arithmetic over `ℚ`. -/

/-- `DocumentSummarizer._split_sentences`: split on `[.!?]+`, keep the
stripped sentences of length > 20. -/
def splitSentences (text : PyStr) : List PyStr :=
  (splitRuns isSentPunct text).filterMap (fun s =>
    let t := pyStrip s
    if t ≠ [] ∧ t.length > 20 then some t else none)

/-- The legal-importance vocabulary of `_score_sentences`. -/
def importantKeywords : List PyStr :=
  ["shall".toList, "must".toList, "agreement".toList, "party".toList,
    "parties".toList, "obligation".toList, "rights".toList, "liability".toList,
    "warranty".toList, "indemnify".toList, "breach".toList, "termination".toList,
    "jurisdiction".toList, "dispute".toList, "clause".toList, "section".toList,
    "payment".toList, "compensation".toList, "damages".toList,
    "force majeure".toList, "confidential".toList]

/-- The score of one sentence in `_score_sentences` (`n` = number of
sentences, `idx` = original index). -/
def sentenceScore (n idx : Nat) (s : PyStr) : ℚ :=
  let low := s.map pyToLower
  let base : Int :=
    importantKeywords.foldl (fun a k => if containsSub low k then a + 2 else a) 0
      + (if s.any Char.isDigit then 1 else 0)
      + (if s.contains '"' then 2 else 0)
      + (if (idx : ℚ) < (n : ℚ) * (2 / 10) then 1 else 0)
      + (if s.length > 500 then -1 else 0)
  (base : ℚ) * (1 - ((idx : ℚ) / (n : ℚ)) * (3 / 10))

/-- `DocumentSummarizer._score_sentences`: each sentence with its score
and original index. -/
def scoreSentences (sentences : List PyStr) : List (PyStr × ℚ × Nat) :=
  sentences.enum.map (fun p => (p.2, sentenceScore sentences.length p.1 p.2, p.1))

/-- The fixed no-content marker string returned by `summarize`. -/
def noContentMsg : PyStr := "No content to summarize.".toList

/-- The sentence list selected by `DocumentSummarizer.summarize` before
joining: stable sort by score descending, take the best `k`, stable sort
the selection by original index ascending. -/
def summarizeSelection (sentences : List PyStr) (k : Nat) : List (PyStr × ℚ × Nat) :=
  (((scoreSentences sentences).mergeSort
      (fun a b => decide (b.2.1 ≤ a.2.1))).take k).mergeSort
    (fun a b => decide (a.2.2 ≤ b.2.2))

/-- `DocumentSummarizer.summarize` (`max_sentences = None` selects the
default `max_summary_sentences = 10`). -/
def summarize (text : PyStr) (maxSentences : Option Nat) : PyStr :=
  let k := maxSentences.getD 10
  let sentences := splitSentences text
  if sentences = [] then noContentMsg
  else List.intercalate " ".toList ((summarizeSelection sentences k).map (fun x => x.1))

/-- The critical-term vocabulary of `generate_key_points`. -/
def criticalTerms : List PyStr :=
  ["termination".toList, "liability".toList, "warranty".toList,
    "indemnification".toList, "dispute resolution".toList,
    "confidentiality".toList, "payment terms".toList]

/-- `DocumentSummarizer.generate_key_points`. -/
def generate_key_points (text : PyStr) (clauses : List Clause)
    (definitions : List Definition) (obligations : List PyStr) : List PyStr :=
  let kp1 : List PyStr :=
    if clauses = [] then []
    else ["Document contains ".toList ++ natStr clauses.length
      ++ " identifiable clauses/sections".toList]
  let kp2 : List PyStr :=
    if definitions = [] then []
    else ("Found ".toList ++ natStr definitions.length ++ " key definitions".toList)
      :: (definitions.take 3).map (fun d =>
        "• Defines '".toList ++ d.term ++ "'".toList)
  let kp3 : List PyStr :=
    if obligations = [] then []
    else ("Identified ".toList ++ natStr obligations.length
        ++ " obligation statements".toList)
      :: (obligations.take 3).map (fun o => "• ".toList ++ o.take 150 ++ "...".toList)
  let found := criticalTerms.filter (fun t => containsSub (text.map pyToLower) t)
  let kp4 : List PyStr :=
    if found = [] then []
    else ["Critical sections present: ".toList ++ List.intercalate ", ".toList found]
  kp1 ++ kp2 ++ kp3 ++ kp4

/-! ### `LegalDocumentAnalyzer` (`legal_analyzer.py`) -/

/-- The result record assembled by `analyze_document`. -/
structure AnalysisResult where
  success : Bool
  file_path : PyStr
  text_length : Nat
  word_count : Nat
  clauses : List Clause
  definitions : List Definition
  obligations : List PyStr
  summary : PyStr
  key_points : List PyStr
  full_text : PyStr
deriving DecidableEq

/-- `LegalDocumentAnalyzer.analyze_document`: parse, validate minimum
content length, run the extractors and the summarizer, assemble the
record.  `ValueError`, `FileNotFoundError` and `RuntimeError` are
re-raised unchanged (every error of the embedded core is one of these
three, so the `RuntimeError("Unexpected error...")` catch-all is never
reached). -/
def analyze_document (fs : FS) (file_path : PyStr) : Except PyError AnalysisResult :=
  match parse fs file_path with
  | .error e => .error e
  | .ok text =>
    if text = [] ∨ (pyStrip text).length < 50 then
      .error (.valueError "Document appears to be empty or too short".toList)
    else
      let clauses := extract_clauses text
      let definitions := extract_definitions text
      let obligations := extract_obligations text
      .ok { success := true
            file_path := file_path
            text_length := text.length
            word_count := (pySplitWs text).length
            clauses := clauses
            definitions := definitions
            obligations := obligations
            summary := summarize text none
            key_points := generate_key_points text clauses definitions obligations
            full_text := text.take 1000 }

/-- The result record assembled by `search_document`. -/
structure SearchRecord where
  success : Bool
  file_path : PyStr
  keywords : List PyStr
  results : List (PyStr × List PyStr)
  total_matches : Nat
deriving DecidableEq

/-- `LegalDocumentAnalyzer.search_document`: parse, search, wrap; any
exception raised underneath (in the embedded core, only by `parse`) is
caught and re-raised as `RuntimeError("Error searching document: ...")`. -/
def search_document (fs : FS) (file_path : PyStr) (keywords : List PyStr) :
    Except PyError SearchRecord :=
  match parse fs file_path with
  | .error e => .error (.runtimeError ("Error searching document: ".toList ++ e.msg))
  | .ok text =>
    let sr := search_keywords text keywords
    .ok { success := true
          file_path := file_path
          keywords := keywords
          results := sr
          total_matches := (sr.map (fun p => p.2.length)).sum }

/-! ### Verified properties -/

/-- Is a result an error of the `ValueError` class (the class that carries
the UnsupportedFormat kind)? -/
def isValueErrorResult {α : Type} : Except PyError α → Bool
  | .error (.valueError _) => true
  | _ => false

/-- C1 (counterexample).  The claim says every path with an unsupported
extension makes both `analyze_document` and `search_document` fail with
the UnsupportedFormat kind.  At the concrete unsupported-extension path
`a.xyz` that does not exist, `analyze_document` fails with
`FileNotFoundError` (the existence check runs first); and at the concrete
unsupported-extension path `b.xyz` that does exist, `search_document`
fails with a `RuntimeError` (its catch-all wraps the `ValueError`).  So
the claim as stated is false on both counts. -/
theorem c1_unsupported_counterexample :
    isValueErrorResult (analyze_document
      ⟨fun _ => false, fun _ => .error [], fun _ => .error [], fun _ => .error []⟩
      "a.xyz".toList) = false ∧
    isValueErrorResult (search_document
      ⟨fun _ => true, fun _ => .ok [], fun _ => .ok [], fun _ => .ok []⟩
      "b.xyz".toList []) = false ∧
    analyze_document
      ⟨fun _ => false, fun _ => .error [], fun _ => .error [], fun _ => .error []⟩
      "a.xyz".toList
      = .error (.fileNotFoundError ("File not found: ".toList ++ "a.xyz".toList)) ∧
    search_document
      ⟨fun _ => true, fun _ => .ok [], fun _ => .ok [], fun _ => .ok []⟩
      "b.xyz".toList []
      = .error (.runtimeError ("Error searching document: ".toList
        ++ ("Unsupported file format: ".toList ++ ".xyz".toList
          ++ ". Supported formats: .pdf, .docx, .txt".toList))) :=
  ⟨rfl, rfl, rfl, rfl⟩

/-- C1 (amended).  For every *existing* path whose extension is not one of
`.pdf`, `.docx`, `.txt` (case-insensitive), `analyze_document` fails with
the UnsupportedFormat kind (`ValueError`) and `search_document` fails with
a `RuntimeError` wrapping the unsupported-format message.  Since the
conclusion is a fixed error value for *every* environment `fs` that has
the path, neither operation reads or decodes any file content. -/
theorem c1_unsupported_amended (fs : FS) (p : PyStr) (kws : List PyStr)
    (hex : fs.pathExists p = true)
    (hun : (splitext_ext p).map pyToLower ∉ SUPPORTED_FORMATS) :
    analyze_document fs p = .error (.valueError ("Unsupported file format: ".toList
      ++ (splitext_ext p).map pyToLower
      ++ ". Supported formats: .pdf, .docx, .txt".toList)) ∧
    search_document fs p kws = .error (.runtimeError ("Error searching document: ".toList
      ++ ("Unsupported file format: ".toList ++ (splitext_ext p).map pyToLower
        ++ ". Supported formats: .pdf, .docx, .txt".toList))) := by
  have hp : parse fs p = .error (.valueError ("Unsupported file format: ".toList
      ++ (splitext_ext p).map pyToLower
      ++ ". Supported formats: .pdf, .docx, .txt".toList)) := by
    unfold parse
    rw [if_neg (by simp [hex]), if_neg hun]
  constructor
  · unfold analyze_document
    rw [hp]
  · unfold search_document
    rw [hp]
    rfl

/-- C1 (witness): the amended theorem applied at the concrete existing
path `b.xyz`. -/
theorem c1_unsupported_amended_witness :
    analyze_document ⟨fun _ => true, fun _ => .ok [], fun _ => .ok [], fun _ => .ok []⟩
      "b.xyz".toList
      = .error (.valueError ("Unsupported file format: ".toList
        ++ (splitext_ext "b.xyz".toList).map pyToLower
        ++ ". Supported formats: .pdf, .docx, .txt".toList)) ∧
    search_document ⟨fun _ => true, fun _ => .ok [], fun _ => .ok [], fun _ => .ok []⟩
      "b.xyz".toList ["x".toList]
      = .error (.runtimeError ("Error searching document: ".toList
        ++ ("Unsupported file format: ".toList
          ++ (splitext_ext "b.xyz".toList).map pyToLower
          ++ ". Supported formats: .pdf, .docx, .txt".toList))) :=
  c1_unsupported_amended _ _ _ rfl (by decide)

/-- C2: on a path that does not exist, `analyze_document` fails with the
NotFound kind (`FileNotFoundError`), regardless of the path's extension:
the existence check precedes the extension check. -/
theorem c2_notfound (fs : FS) (p : PyStr) (h : fs.pathExists p = false) :
    analyze_document fs p
      = .error (.fileNotFoundError ("File not found: ".toList ++ p)) := by
  have hp : parse fs p = .error (.fileNotFoundError ("File not found: ".toList ++ p)) := by
    unfold parse
    rw [if_pos h]
  unfold analyze_document
  rw [hp]

/-- C2 (witness): the theorem applied at the concrete missing path
`missing.xyz` (note: an unsupported extension, NotFound still wins). -/
theorem c2_notfound_witness :
    analyze_document ⟨fun _ => false, fun _ => .error [], fun _ => .error [], fun _ => .error []⟩
      "missing.xyz".toList
      = .error (.fileNotFoundError ("File not found: ".toList ++ "missing.xyz".toList)) :=
  c2_notfound _ _ rfl

/-- Auxiliary: a property of values is preserved by Python dict
assignment. -/
theorem dictSet_forall {P : List PyStr → Prop} :
    ∀ (d : List (PyStr × List PyStr)) (key : PyStr) (v : List PyStr),
      (∀ e ∈ d, P e.2) → P v → ∀ e ∈ dictSet d key v, P e.2
  | [], _, _, _, hv, e, he => by
    simp only [dictSet, List.mem_singleton] at he
    subst he; exact hv
  | (k0, v0) :: t, key, v, hd, hv, e, he => by
    simp only [dictSet] at he
    by_cases hk : k0 = key
    · rw [if_pos hk] at he
      rcases List.mem_cons.1 he with h | h
      · subst h; exact hv
      · exact hd e (List.mem_cons_of_mem _ h)
    · rw [if_neg hk] at he
      rcases List.mem_cons.1 he with h | h
      · subst h; exact hd _ (List.mem_cons_self _ _)
      · exact dictSet_forall t key v (fun e' he' => hd e' (List.mem_cons_of_mem _ he')) hv e h

/-- Auxiliary: `searchStep` preserves the 10-snippet cap on every stored
value. -/
theorem searchStep_forall_le (text : PyStr) (res : List (PyStr × List PyStr)) (kw : PyStr)
    (hres : ∀ e ∈ res, e.2.length ≤ 10) :
    ∀ e ∈ searchStep text res kw, e.2.length ≤ 10 := by
  intro e he
  unfold searchStep at he
  by_cases hm : (searchKeywordMatches text kw).isEmpty
  · rw [if_pos hm] at he
    exact hres e he
  · rw [if_neg hm] at he
    exact @dictSet_forall (fun v => v.length ≤ 10) res kw _ hres
      (List.length_take_le _ _) e he

/-- Auxiliary: every snippet list held in the accumulator of the
`search_keywords` fold has length at most 10. -/
theorem search_keywords_fold_le (text : PyStr) :
    ∀ (kws : List PyStr) (res : List (PyStr × List PyStr)),
      (∀ e ∈ res, e.2.length ≤ 10) →
      ∀ e ∈ kws.foldl (searchStep text) res, e.2.length ≤ 10
  | [], res, hres, e, he => hres e he
  | kw :: kws, res, hres, e, he => by
    rw [List.foldl_cons] at he
    exact search_keywords_fold_le text kws _ (searchStep_forall_le text res kw hres) e he

/-- C3: the caps are enforced inside the extractors themselves: for every
text the definitions list has length at most 20, the obligations list at
most 15, and every per-keyword snippet list produced by `search_keywords`
at most 10. -/
theorem c3_caps (text : PyStr) (kws : List PyStr) (kw : PyStr) (snips : List PyStr)
    (h : (kw, snips) ∈ search_keywords text kws) :
    (extract_definitions text).length ≤ 20 ∧
    (extract_obligations text).length ≤ 15 ∧
    snips.length ≤ 10 := by
  refine ⟨List.length_take_le _ _, List.length_take_le _ _, ?_⟩
  exact search_keywords_fold_le text kws [] (by simp) (kw, snips) h

/-- C3 (witness): the theorem applied to the concrete text `agreement`
searched for the keyword `agreement`. -/
theorem c3_caps_witness :
    (extract_definitions "agreement".toList).length ≤ 20 ∧
    (extract_obligations "agreement".toList).length ≤ 15 ∧
    ("**agreement**".toList :: []).length ≤ 10 :=
  c3_caps "agreement".toList ["agreement".toList] "agreement".toList _ (by decide)

/-- C8: keyword search is case-insensitive: two keywords with the same
lowercasing produce the very same snippet lists from `search_keywords`
(hence identical match counts), and the same number of matches from the
per-keyword search. -/
theorem c8_case_insensitive (text k1 k2 : PyStr)
    (h : k1.map pyToLower = k2.map pyToLower) :
    (search_keywords text [k1]).map (fun e => e.2)
      = (search_keywords text [k2]).map (fun e => e.2) ∧
    (searchKeywordMatches text k1).length = (searchKeywordMatches text k2).length := by
  have hm : searchKeywordMatches text k1 = searchKeywordMatches text k2 := by
    unfold searchKeywordMatches
    rw [h]
  refine ⟨?_, by rw [hm]⟩
  simp only [search_keywords, List.foldl_cons, List.foldl_nil, searchStep, hm]
  by_cases he : (searchKeywordMatches text k2).isEmpty
  · simp [he]
  · simp [he, dictSet]

/-- C8 (witness): the theorem applied to `Agreement` vs `agreement` over a
concrete text containing both spellings. -/
theorem c8_case_insensitive_witness :
    (search_keywords "The Agreement amends the agreement.".toList ["Agreement".toList]).map
        (fun e => e.2)
      = (search_keywords "The Agreement amends the agreement.".toList
          ["agreement".toList]).map (fun e => e.2) ∧
    (searchKeywordMatches "The Agreement amends the agreement.".toList
        "Agreement".toList).length
      = (searchKeywordMatches "The Agreement amends the agreement.".toList
          "agreement".toList).length :=
  c8_case_insensitive _ _ _ (by decide)

/-- Auxiliary: if some character of `l` fails `p`, then `splitRuns p l`
contains a nonempty piece. -/
theorem splitRuns_exists_nonempty (p : Char → Bool) :
    ∀ l : List Char, (∃ c ∈ l, p c = false) → ∃ s ∈ splitRuns p l, s ≠ []
  | [], h => by simp at h
  | c :: rest, h => by
    by_cases hc : p c
    · have hrest : ∃ c ∈ rest, p c = false := by
        rcases h with ⟨d, hd, hdp⟩
        rcases List.mem_cons.1 hd with rfl | hd'
        · rw [hc] at hdp; cases hdp
        · exact ⟨d, hd', hdp⟩
      rcases splitRuns_exists_nonempty p rest hrest with ⟨s, hs, hne⟩
      refine ⟨s, ?_, hne⟩
      simp only [splitRuns, hc, if_true]
      by_cases hh : headSat p rest
      · rw [if_pos hh]; exact hs
      · rw [if_neg hh]; exact List.mem_cons_of_mem _ hs
    · simp only [splitRuns, hc, if_false]
      match hsr : splitRuns p rest with
      | [] => exact ⟨[c], List.mem_singleton.2 rfl, by simp⟩
      | h0 :: t => exact ⟨c :: h0, List.mem_cons_self _ _, by simp⟩

/-- Auxiliary: a text with a nonempty strip has a positive Python
`str.split()` word count. -/
theorem pySplitWs_pos (t : PyStr) (h : pyStrip t ≠ []) : 0 < (pySplitWs t).length := by
  have hex : ∃ c ∈ t, pyIsSpace c = false := by
    by_contra hall
    push_neg at hall
    have hall' : ∀ c ∈ t, pyIsSpace c := by
      intro c hc
      rcases Bool.eq_false_or_eq_true (pyIsSpace c) with ht | hf
      · exact ht
      · exact absurd hf (hall c hc)
    have h1 : t.dropWhile pyIsSpace = [] := List.dropWhile_eq_nil_iff.2 hall'
    have : pyStrip t = [] := by
      unfold pyStrip
      rw [h1]
      simp
    exact h this
  rcases splitRuns_exists_nonempty pyIsSpace t hex with ⟨s, hs, hne⟩
  have : s ∈ pySplitWs t := by
    unfold pySplitWs
    exact List.mem_filter.2 ⟨hs, by simpa using hne⟩
  exact List.length_pos.2 (fun hnil => by simp [hnil] at this)

/-- Auxiliary: the value equation of `analyze_document` on the success
path. -/
theorem analyze_document_eq_ok (fs : FS) (p text : PyStr)
    (hp : parse fs p = .ok text) (h : ¬(text = [] ∨ (pyStrip text).length < 50)) :
    analyze_document fs p = .ok
      { success := true
        file_path := p
        text_length := text.length
        word_count := (pySplitWs text).length
        clauses := extract_clauses text
        definitions := extract_definitions text
        obligations := extract_obligations text
        summary := summarize text none
        key_points := generate_key_points text (extract_clauses text)
          (extract_definitions text) (extract_obligations text)
        full_text := text.take 1000 } := by
  simp only [analyze_document, hp]
  rw [if_neg h]

/-- Auxiliary: the value equation of `analyze_document` on the too-short
path. -/
theorem analyze_document_eq_short (fs : FS) (p text : PyStr)
    (hp : parse fs p = .ok text) (h : text = [] ∨ (pyStrip text).length < 50) :
    analyze_document fs p
      = .error (.valueError "Document appears to be empty or too short".toList) := by
  simp only [analyze_document, hp]
  rw [if_pos h]

/-- C4: for every environment and path that parse to a text whose trimmed
length is at least 50, `analyze_document` succeeds with `success = true`,
a positive word count, and `text_length` equal to the decoded string's
length. -/
theorem c4_analyze_success (fs : FS) (p text : PyStr)
    (hp : parse fs p = .ok text) (hlen : 50 ≤ (pyStrip text).length) :
    ∃ r, analyze_document fs p = .ok r ∧ r.success = true ∧
      0 < r.word_count ∧ r.text_length = text.length := by
  have hne : ¬(text = [] ∨ (pyStrip text).length < 50) := by
    rintro (rfl | hlt)
    · simp [pyStrip] at hlen
    · omega
  refine ⟨_, analyze_document_eq_ok fs p text hp hne, rfl, ?_, rfl⟩
  show 0 < (pySplitWs text).length
  refine pySplitWs_pos text (fun hnil => ?_)
  rw [hnil] at hlen
  simp at hlen

/-- C4 (witness): the theorem applied to a concrete 57-character `.txt`
file. -/
theorem c4_analyze_success_witness :
    ∃ r, analyze_document
        ⟨fun _ => true, fun _ => .error [], fun _ => .error [],
          fun _ => .ok "This Agreement shall be binding upon the parties hereto.".toList⟩
        "contract.txt".toList = .ok r ∧
      r.success = true ∧ 0 < r.word_count ∧
      r.text_length = "This Agreement shall be binding upon the parties hereto.".toList.length :=
  c4_analyze_success _ _ _ rfl (by decide)

/-- Auxiliary: searching a list of nonempty keywords over the empty text
yields the empty mapping. -/
theorem search_keywords_nil_text :
    ∀ kws : List PyStr, (∀ kw ∈ kws, kw ≠ []) → search_keywords [] kws = []
  | [], _ => rfl
  | kw :: kws, h => by
    have hkw : kw ≠ [] := h kw (List.mem_cons_self _ _)
    have hmatch : searchKeywordMatches [] kw = [] := by
      match kw, hkw with
      | c :: t, _ => rfl
    have hrec := search_keywords_nil_text kws (fun k hk => h k (List.mem_cons_of_mem _ hk))
    have hstep : searchStep [] ([] : List (PyStr × List PyStr)) kw = [] := by
      unfold searchStep
      rw [hmatch]
      rfl
    unfold search_keywords at hrec ⊢
    rw [List.foldl_cons, hstep]
    exact hrec

/-- C10 (counterexample).  The claim's parenthetical says that on an
empty decoded text the search yields an empty match mapping and
`total_matches = 0`.  Searching the empty `.txt` file for the empty
keyword (Python's empty regex matches at position 0 even in an empty
string) yields a nonempty mapping and `total_matches = 1`, so the claim
as stated is false. -/
theorem c10_search_counterexample :
    search_document
      ⟨fun _ => true, fun _ => .error [], fun _ => .error [], fun _ => .ok []⟩
      "empty.txt".toList [[]]
      = .ok { success := true, file_path := "empty.txt".toList, keywords := [[]],
              results := [([], ["****".toList])], total_matches := 1 } ∧
    ([([], ["****".toList])] : List (PyStr × List PyStr)) ≠ [] ∧ (1 : Nat) ≠ 0 :=
  ⟨rfl, by decide, by decide⟩

/-- C10 (amended): `search_document` applies no minimum-content-length
validation: whenever parsing yields a text of trimmed length below 50 —
which makes `analyze_document` reject the same file as too short — the
search still succeeds with `success = true`; and if the decoded text is
empty and no keyword is the empty string, the match mapping is empty and
`total_matches = 0`. -/
theorem c10_search_no_min_length (fs : FS) (p text : PyStr) (kws : List PyStr)
    (hp : parse fs p = .ok text) (hshort : (pyStrip text).length < 50) :
    (∃ r, search_document fs p kws = .ok r ∧ r.success = true ∧
      (text = [] → (∀ kw ∈ kws, kw ≠ []) → r.results = [] ∧ r.total_matches = 0)) ∧
    analyze_document fs p
      = .error (.valueError "Document appears to be empty or too short".toList) := by
  constructor
  · have hs : search_document fs p kws = .ok
        { success := true
          file_path := p
          keywords := kws
          results := search_keywords text kws
          total_matches := ((search_keywords text kws).map (fun q => q.2.length)).sum } := by
      simp only [search_document, hp]
    refine ⟨_, hs, rfl, ?_⟩
    rintro rfl hkws
    have hsk : search_keywords [] kws = [] := search_keywords_nil_text kws hkws
    constructor
    · exact hsk
    · show ((search_keywords [] kws).map (fun q => q.2.length)).sum = 0
      rw [hsk]
      rfl
  · exact analyze_document_eq_short fs p text hp (Or.inr hshort)

/-- C10 (witness): the amended theorem applied to a concrete short `.txt`
file. -/
theorem c10_search_no_min_length_witness :
    (∃ r, search_document
        ⟨fun _ => true, fun _ => .error [], fun _ => .error [],
          fun _ => .ok "short text".toList⟩ "s.txt".toList ["x".toList]
        = .ok r ∧ r.success = true ∧
      ("short text".toList = [] → (∀ kw ∈ ["x".toList], kw ≠ ([] : PyStr)) →
        r.results = [] ∧ r.total_matches = 0)) ∧
    analyze_document
      ⟨fun _ => true, fun _ => .error [], fun _ => .error [],
        fun _ => .ok "short text".toList⟩ "s.txt".toList
      = .error (.valueError "Document appears to be empty or too short".toList) :=
  c10_search_no_min_length _ _ _ _ rfl (by decide)

/-- C6: if every raw piece of the `[.!?]+` sentence split has trimmed
length at most 20 (in particular for the empty string), `summarize`
returns exactly the fixed no-content marker string, as a valid output and
not an error. -/
theorem c6_no_content (text : PyStr) (k : Option Nat)
    (h : ∀ s ∈ splitRuns isSentPunct text, (pyStrip s).length ≤ 20) :
    summarize text k = noContentMsg := by
  have hs : splitSentences text = [] := by
    unfold splitSentences
    rw [List.filterMap_eq_nil_iff]
    intro s hsmem
    have hle := h s hsmem
    rw [if_neg]
    rintro ⟨-, hgt⟩
    omega
  unfold summarize
  rw [hs, if_pos rfl]

/-- C6 (witness): the theorem applied to the empty string. -/
theorem c6_no_content_witness : summarize [] (some 3) = noContentMsg :=
  c6_no_content [] (some 3) (by decide)

/-- Auxiliary: a successful `lineMatch` always has `lastindex = some 1`
and a present group-1 capture: both clause patterns contain a mandatory
numeric capturing group. -/
theorem lineMatch_capture (line : PyStr) (m : ReMatch) (h : lineMatch line = some m) :
    m.lastindex = some 1 ∧ ∃ cap, m.group1 = some cap := by
  unfold lineMatch at h
  cases h1 : anchoredSearch p1MatchAt line with
  | some cap =>
    rw [h1] at h
    cases h
    exact ⟨rfl, cap, rfl⟩
  | none =>
    rw [h1] at h
    cases h2 : anchoredSearch p2MatchAt line with
    | some cap =>
      rw [h2] at h
      cases h
      exact ⟨rfl, cap, rfl⟩
    | none =>
      rw [h2] at h
      cases h

/-- Modelled from the spec: the per-line clause rule of §4.4 of the spec
("a line matches ... any of two pattern families ... Only the first
matching pattern per line is used"), as a single per-line function with no
sequential-counter state. -/
def clausePerLineSpec (lines : List PyStr) (i : Nat) (line : PyStr) : Option Clause :=
  (lineMatch line).map (fun m =>
    { number := m.group1.getD [], text := truncate200 (contextOf lines i) })

/-- Auxiliary: the stateful clause loop equals the stateless per-line
`filterMap`, for every value of the clause counter (the counter is dead
because the capture is always present). -/
theorem extractClausesGo_eq_filterMap (lines : List PyStr) :
    ∀ (pairs : List (Nat × PyStr)) (n : Nat),
      extractClausesGo lines pairs n
        = pairs.filterMap (fun q => clausePerLineSpec lines q.1 q.2)
  | [], _ => rfl
  | (i, line) :: rest, n => by
    rw [List.filterMap_cons]
    cases hm : lineMatch line with
    | some m =>
      rcases lineMatch_capture line m hm with ⟨hlast, cap, hcap⟩
      simp only [extractClausesGo, hm, hlast, clausePerLineSpec]
      rw [extractClausesGo_eq_filterMap lines rest (n + 1)]
      rfl
    | none =>
      simp only [extractClausesGo, hm, clausePerLineSpec]
      rw [extractClausesGo_eq_filterMap lines rest n]
      rfl

/-- C7: `extract_clauses` produces at most one clause per line, the two
pattern families being tried in a fixed order with the first hit winning:
it equals the per-line first-match `filterMap` over the enumerated lines,
and in particular its length is bounded by the number of lines. -/
theorem c7_first_match_per_line (text : PyStr) :
    extract_clauses text
      = ((splitOnChar '\n' text).enum).filterMap
          (fun q => clausePerLineSpec (splitOnChar '\n' text) q.1 q.2) ∧
    (extract_clauses text).length ≤ (splitOnChar '\n' text).length := by
  have he : extract_clauses text
      = ((splitOnChar '\n' text).enum).filterMap
          (fun q => clausePerLineSpec (splitOnChar '\n' text) q.1 q.2) := by
    unfold extract_clauses
    exact extractClausesGo_eq_filterMap _ _ 0
  refine ⟨he, ?_⟩
  rw [he]
  calc (((splitOnChar '\n' text).enum).filterMap _).length
      ≤ ((splitOnChar '\n' text).enum).length := List.length_filterMap_le _ _
    _ = (splitOnChar '\n' text).length := List.enum_length

/-- C9: every clause returned by `extract_clauses` takes its `number`
field from the digits captured by the matching pattern; the
sequential-counter fallback is never taken, because both clause patterns
contain a mandatory numeric capturing group — equivalently, the clause
loop returns the same clauses whatever value the counter starts from. -/
theorem c9_number_from_capture (text : PyStr) (c : Clause)
    (h : c ∈ extract_clauses text) :
    (∃ line ∈ splitOnChar '\n' text, ∃ m, lineMatch line = some m ∧
      m.group1 = some c.number) ∧
    ∀ n n' : Nat,
      extractClausesGo (splitOnChar '\n' text) ((splitOnChar '\n' text).enum) n
        = extractClausesGo (splitOnChar '\n' text) ((splitOnChar '\n' text).enum) n' := by
  refine ⟨?_, fun n n' => by
    rw [extractClausesGo_eq_filterMap, extractClausesGo_eq_filterMap]⟩
  have he := extractClausesGo_eq_filterMap (splitOnChar '\n' text)
    ((splitOnChar '\n' text).enum) 0
  unfold extract_clauses at h
  rw [he] at h
  rcases List.mem_filterMap.1 h with ⟨⟨i, line⟩, hmem, hq⟩
  have hline : line ∈ splitOnChar '\n' text := by
    have := List.mk_mem_enum_iff_getElem?.1 hmem
    exact List.getElem?_mem this
  unfold clausePerLineSpec at hq
  cases hm : lineMatch line with
  | none => rw [hm] at hq; cases hq
  | some m =>
    rw [hm] at hq
    rcases lineMatch_capture line m hm with ⟨-, cap, hcap⟩
    refine ⟨line, hline, m, hm, ?_⟩
    simp only [Option.map_some] at hq
    rw [hcap]
    cases hq
    simp [hcap]

/-- C9 (witness): the theorem applied to the concrete one-line text
`1. Hello there friend`, whose clause number `1` is the captured digit
run. -/
theorem c9_number_from_capture_witness :
    (∃ line ∈ splitOnChar '\n' "1. Hello there friend".toList, ∃ m,
      lineMatch line = some m ∧
      m.group1 = some (Clause.number ⟨"1".toList, "1. Hello there friend".toList⟩)) ∧
    ∀ n n' : Nat,
      extractClausesGo (splitOnChar '\n' "1. Hello there friend".toList)
          ((splitOnChar '\n' "1. Hello there friend".toList).enum) n
        = extractClausesGo (splitOnChar '\n' "1. Hello there friend".toList)
          ((splitOnChar '\n' "1. Hello there friend".toList).enum) n' :=
  c9_number_from_capture "1. Hello there friend".toList
    ⟨"1".toList, "1. Hello there friend".toList⟩ (by decide)

/-- Auxiliary: the original-index components of the scored sentence list
are exactly `range n`. -/
theorem scoreSentences_map_idx (sents : List PyStr) :
    (scoreSentences sents).map (fun x => x.2.2) = List.range sents.length := by
  unfold scoreSentences
  rw [List.map_map]
  have hfg : ((fun x : PyStr × ℚ × Nat => x.2.2) ∘
      (fun p : Nat × PyStr => (p.2, sentenceScore sents.length p.1 p.2, p.1)))
      = Prod.fst := funext fun p => rfl
  rw [hfg]
  exact List.enum_map_fst sents

/-- Auxiliary: the sentence components of the scored sentence list are the
sentences themselves, in order. -/
theorem scoreSentences_map_fst (sents : List PyStr) :
    (scoreSentences sents).map (fun x => x.1) = sents := by
  unfold scoreSentences
  rw [List.map_map]
  have hfg : ((fun x : PyStr × ℚ × Nat => x.1) ∘
      (fun p : Nat × PyStr => (p.2, sentenceScore sents.length p.1 p.2, p.1)))
      = Prod.snd := funext fun p => rfl
  rw [hfg]
  exact List.enum_map_snd sents

/-- Auxiliary: the selection kept by `summarize` is a sublist of the
split sentences (same relative order as the source), of length at most
`k`. -/
theorem summarizeSelection_sublist (sents : List PyStr) (k : Nat) :
    ((summarizeSelection sents k).map (fun x => x.1)).Sublist sents ∧
    (summarizeSelection sents k).length ≤ k := by
  have hperm1 : List.Perm ((scoreSentences sents).mergeSort (fun a b => decide (b.2.1 ≤ a.2.1)))
      (scoreSentences sents) := List.mergeSort_perm _ _
  have htop : (((scoreSentences sents).mergeSort
        (fun a b => decide (b.2.1 ≤ a.2.1))).take k).Sublist
      ((scoreSentences sents).mergeSort (fun a b => decide (b.2.1 ≤ a.2.1))) :=
    List.take_sublist _ _
  have hperm2 : List.Perm (summarizeSelection sents k)
      ((((scoreSentences sents).mergeSort (fun a b => decide (b.2.1 ≤ a.2.1))).take k)) :=
    List.mergeSort_perm _ _
  have hsubperm : List.Subperm (summarizeSelection sents k) (scoreSentences sents) := by
    refine List.Subperm.trans ⟨_, hperm2.symm, htop⟩ hperm1.subperm
  have hsorted : (summarizeSelection sents k).Pairwise
      (fun a b : PyStr × ℚ × Nat => a.2.2 ≤ b.2.2) := by
    have h := @List.sorted_mergeSort (PyStr × ℚ × Nat)
      (fun a b : PyStr × ℚ × Nat => decide (a.2.2 ≤ b.2.2))
      (fun a b c hab hbc => by
        simp only [decide_eq_true_eq] at hab hbc ⊢
        omega)
      (fun a b => by
        simp only [Bool.or_eq_true, decide_eq_true_eq]
        omega)
      (((scoreSentences sents).mergeSort (fun a b => decide (b.2.1 ≤ a.2.1))).take k)
    exact h.imp (fun hab => by simpa using hab)
  have hnod0 : ((scoreSentences sents).map (fun x => x.2.2)).Nodup := by
    rw [scoreSentences_map_idx]
    exact List.nodup_range _
  have hnod : ((summarizeSelection sents k).map (fun x => x.2.2)).Nodup := by
    refine (List.Perm.nodup_iff (List.Perm.map _ hperm2)).2 ?_
    refine List.Nodup.sublist (List.Sublist.map _ htop) ?_
    exact (List.Perm.nodup_iff (List.Perm.map _ hperm1)).2 hnod0
  have hne : (summarizeSelection sents k).Pairwise
      (fun a b : PyStr × ℚ × Nat => a.2.2 ≠ b.2.2) := List.pairwise_map.1 hnod
  have hlt : (summarizeSelection sents k).Pairwise
      (fun a b : PyStr × ℚ × Nat => a.2.2 < b.2.2) :=
    (hsorted.and hne).imp (fun h => Nat.lt_of_le_of_ne h.1 h.2)
  have hscored : (scoreSentences sents).Pairwise
      (fun a b : PyStr × ℚ × Nat => a.2.2 < b.2.2) := by
    refine List.pairwise_map.1 ?_
    rw [scoreSentences_map_idx]
    exact List.pairwise_lt_range _
  haveI : IsAntisymm (PyStr × ℚ × Nat) (fun a b => a.2.2 < b.2.2) :=
    ⟨fun a b h1 h2 => absurd (Nat.lt_trans h1 h2) (Nat.lt_irrefl _)⟩
  have hsub : (summarizeSelection sents k).Sublist (scoreSentences sents) :=
    List.sublist_of_subperm_of_sorted hsubperm hlt hscored
  constructor
  · have hmap := hsub.map (fun x : PyStr × ℚ × Nat => x.1)
    rwa [scoreSentences_map_fst] at hmap
  · calc (summarizeSelection sents k).length
        = (((scoreSentences sents).mergeSort
            (fun a b => decide (b.2.1 ≤ a.2.1))).take k).length := hperm2.length_eq
      _ ≤ k := List.length_take_le _ _

/-- C5: `summarize text (some k)` either reports no content, or is the
space-join of at most `k` sentences that form a sublist of the split
sentences of the text — i.e. they appear in the summary in the same
relative order as in the source. -/
theorem c5_summary_bound_and_order (text : PyStr) (k : Nat) :
    (splitSentences text = [] ∧ summarize text (some k) = noContentMsg) ∨
    ∃ sel : List PyStr, sel.Sublist (splitSentences text) ∧ sel.length ≤ k ∧
      summarize text (some k) = List.intercalate " ".toList sel := by
  by_cases hs : splitSentences text = []
  · left
    refine ⟨hs, ?_⟩
    unfold summarize
    rw [hs, if_pos rfl]
  · right
    refine ⟨(summarizeSelection (splitSentences text) k).map (fun x => x.1), ?_, ?_, ?_⟩
    · exact (summarizeSelection_sublist (splitSentences text) k).1
    · rw [List.length_map]
      exact (summarizeSelection_sublist (splitSentences text) k).2
    · unfold summarize
      rw [if_neg hs]
      rfl

end LegalDoc
